import Mathlib

/-!
Verification of the text-to-structured-record extraction pipeline of the
HCPLogger backend (backend/agent.py together with backend/models.py).

The embedding models, faithfully to the source:
  * Python `datetime.strptime` for the three format strings used by the code
    ("%Y-%m-%d", "%I:%M %p", "%H:%M"), at the character level, including the
    1-or-2-digit tolerance of the directive regexes, the whitespace-run
    matching of a space in the format, and the case-insensitive meridiem;
  * the field normalization of agent.py lines 203-229 (date first, then the
    ordered 12-hour / 24-hour time fallback, failures degrading to None with a
    printed warning);
  * construction of `ParseResponse` (models.py lines 60-66) by pydantic, which
    validates the sentiment closed set and silently ignores unknown keyword
    arguments such as `error=` / `error_details=` (pydantic default extra
    handling), so every failure return of the orchestrator produces an
    all-null record;
  * the orchestrator `run_interaction_parser` (agent.py lines 172-247) over a
    single-node graph (lines 163-168), parameterized by the model service as
    an oracle from the built prompt to either a structured candidate or an
    exception message.

The run result records, besides the returned `ParseResponse`, which return
site of the source was taken (`Branch`), which pipeline steps ran (`Step`),
the warnings printed by normalization, and the number of model calls issued.
-/

set_option maxHeartbeats 1000000

namespace HCPLogger

/-- A calendar date, modelling Python `datetime.date` as produced by
`datetime.strptime(s, "%Y-%m-%d").date()` (agent.py line 206). -/
structure PyDate where
  year : Nat
  month : Nat
  day : Nat
deriving DecidableEq, Repr

/-- A time of day, modelling Python `datetime.time` as produced by
`datetime.strptime(...).time()` (agent.py lines 218 and 222). The two time
formats carry no seconds and `strptime` defaults seconds to 0, so only the
hour and the minute are represented. -/
structure PyTime where
  hour : Nat
  minute : Nat
deriving DecidableEq, Repr

/-- The digit value of an ASCII digit character, if any: the character class
`\d` of the `_strptime` directive regexes together with the `int(...)`
conversion of the matched text. -/
def charToDigit (c : Char) : Option Nat :=
  if 48 ≤ c.toNat ∧ c.toNat ≤ 57 then some (c.toNat - 48) else none

/-- Whitespace as matched by the regex class `\s` (a whitespace run in a
`strptime` format string) and stripped by `str.strip()`. ASCII whitespace
only; non-ASCII whitespace is not modelled, and no claim depends on it. -/
def isPySpace (c : Char) : Bool :=
  c = ' ' || c = '\t' || c = '\n' || c = '\r' || c.toNat = 11 || c.toNat = 12

/-- Python `str.strip()` with no argument: removes leading and trailing
whitespace (agent.py line 214). -/
def pyStrip (s : String) : String :=
  String.mk (((s.data.dropWhile isPySpace).reverse.dropWhile isPySpace).reverse)

/-- Consume one expected literal character (a literal `:` or `-` in a
`strptime` format string). -/
def expectChar (c : Char) : List Char → Option (List Char)
  | x :: rest => if x = c then some rest else none
  | [] => none

/-- Consume the regex `\s+` produced by a whitespace run in a `strptime`
format: at least one whitespace character, greedily extended. (Greediness is
faithful: the following token of the only format with whitespace, `%p`,
matches letters, which are never whitespace, so the regex never backtracks
into the run.) -/
def skipWs1 : List Char → Option (List Char)
  | c :: rest => if isPySpace c then some (rest.dropWhile isPySpace) else none
  | [] => none

/-- The `%p` directive in the C locale: the strings AM / PM matched
case-insensitively. Returns `true` for PM. -/
def parseAmPm : List Char → Option (Bool × List Char)
  | c1 :: c2 :: rest =>
    if (c1 = 'A' ∨ c1 = 'a') ∧ (c2 = 'M' ∨ c2 = 'm') then some (false, rest)
    else if (c1 = 'P' ∨ c1 = 'p') ∧ (c2 = 'M' ∨ c2 = 'm') then some (true, rest)
    else none
  | _ => none

/-!
Each numeric directive of `_strptime` compiles to an ordered alternation of
digit patterns. The parsers below try the alternatives in the regex order and
commit to the first one whose pattern matches. This is equivalent to the
backtracking regex for the formats at hand: in every format the token that
follows a numeric directive is a literal `:` or `-`, a whitespace run, or the
end of the string, none of which a digit can satisfy, so a longer alternative
that matches can never make the continuation fail where a shorter one would
succeed.
-/

/-- The `%m` and `%I` directive regex `1[0-2]|0[1-9]|[1-9]` (month, and
12-hour hour): one or two digits with value 1..12. -/
def parse1to12 : List Char → Option (Nat × List Char)
  | c1 :: c2 :: rest =>
    match charToDigit c1, charToDigit c2 with
    | some d1, some d2 =>
      if d1 = 1 ∧ d2 ≤ 2 then some (10 + d2, rest)
      else if d1 = 0 ∧ 1 ≤ d2 then some (d2, rest)
      else if 1 ≤ d1 then some (d1, c2 :: rest)
      else none
    | some d1, none => if 1 ≤ d1 then some (d1, c2 :: rest) else none
    | none, _ => none
  | [c1] =>
    match charToDigit c1 with
    | some d1 => if 1 ≤ d1 then some (d1, []) else none
    | none => none
  | [] => none

/-- The `%H` directive regex `2[0-3]|[0-1]\d|\d` (24-hour hour): one or two
digits with value 0..23. -/
def parseH24 : List Char → Option (Nat × List Char)
  | c1 :: c2 :: rest =>
    match charToDigit c1, charToDigit c2 with
    | some d1, some d2 =>
      if d1 = 2 ∧ d2 ≤ 3 then some (20 + d2, rest)
      else if d1 ≤ 1 then some (10 * d1 + d2, rest)
      else some (d1, c2 :: rest)
    | some d1, none => some (d1, c2 :: rest)
    | none, _ => none
  | [c1] =>
    match charToDigit c1 with
    | some d1 => some (d1, [])
    | none => none
  | [] => none

/-- The `%M` directive regex `[0-5]\d|\d` (minute): one or two digits with
value 0..59. -/
def parseMin : List Char → Option (Nat × List Char)
  | c1 :: c2 :: rest =>
    match charToDigit c1, charToDigit c2 with
    | some d1, some d2 =>
      if d1 ≤ 5 then some (10 * d1 + d2, rest) else some (d1, c2 :: rest)
    | some d1, none => some (d1, c2 :: rest)
    | none, _ => none
  | [c1] =>
    match charToDigit c1 with
    | some d1 => some (d1, [])
    | none => none
  | [] => none

/-- The `%d` directive regex `3[01]|[12]\d|0[1-9]|[1-9]` (day of month): one
or two digits with value 1..31. -/
def parseDay : List Char → Option (Nat × List Char)
  | c1 :: c2 :: rest =>
    match charToDigit c1, charToDigit c2 with
    | some d1, some d2 =>
      if d1 = 3 ∧ d2 ≤ 1 then some (30 + d2, rest)
      else if d1 = 1 ∨ d1 = 2 then some (10 * d1 + d2, rest)
      else if d1 = 0 ∧ 1 ≤ d2 then some (d2, rest)
      else if 1 ≤ d1 then some (d1, c2 :: rest)
      else none
    | some d1, none => if 1 ≤ d1 then some (d1, c2 :: rest) else none
    | none, _ => none
  | [c1] =>
    match charToDigit c1 with
    | some d1 => if 1 ≤ d1 then some (d1, []) else none
    | none => none
  | [] => none

/-- The `%Y` directive regex `\d\d\d\d`: exactly four digits. -/
def parseY : List Char → Option (Nat × List Char)
  | c1 :: c2 :: c3 :: c4 :: rest => do
    let a ← charToDigit c1
    let b ← charToDigit c2
    let c ← charToDigit c3
    let d ← charToDigit c4
    pure (1000 * a + 100 * b + 10 * c + d, rest)
  | _ => none

/-- The Gregorian leap-year rule used by `datetime.date`. -/
def isLeap (y : Nat) : Bool :=
  y % 4 == 0 && (y % 100 != 0 || y % 400 == 0)

/-- Days in a month, as validated by the `datetime.date` constructor. Only
queried at months 1..12 (the `%m` regex guarantees the range). -/
def daysInMonth (y m : Nat) : Nat :=
  if m = 2 then (if isLeap y then 29 else 28)
  else if m = 4 ∨ m = 6 ∨ m = 9 ∨ m = 11 then 30
  else 31

/-- `datetime.strptime(s, "%Y-%m-%d").date()` (agent.py line 206): full-match
parse of `%Y-%m-%d`, then the `datetime` constructor validates the year range
(year 0 raises) and the day against the month length; a failure raises
`ValueError`, which the caller catches, so failure is `none` here. -/
def strptime_Ymd (s : String) : Option PyDate := do
  let (y, r1) ← parseY s.data
  let r2 ← expectChar '-' r1
  let (m, r3) ← parse1to12 r2
  let r4 ← expectChar '-' r3
  let (d, r5) ← parseDay r4
  if r5.isEmpty ∧ 1 ≤ y ∧ d ≤ daysInMonth y m then pure ⟨y, m, d⟩ else none

/-- `datetime.strptime(s, "%I:%M %p").time()` (agent.py line 218): full-match
parse of the 12-hour format, then the meridiem conversion performed by
`_strptime` (12 AM is hour 0, 12 PM stays 12, other PM hours gain 12). -/
def strptime_IMp (s : String) : Option PyTime := do
  let (h, r1) ← parse1to12 s.data
  let r2 ← expectChar ':' r1
  let (m, r3) ← parseMin r2
  let r4 ← skipWs1 r3
  let (pm, r5) ← parseAmPm r4
  if r5.isEmpty then
    pure { hour := if pm then (if h = 12 then 12 else h + 12) else (if h = 12 then 0 else h),
           minute := m }
  else none

/-- `datetime.strptime(s, "%H:%M").time()` (agent.py line 222): full-match
parse of the 24-hour format. -/
def strptime_HM (s : String) : Option PyTime := do
  let (h, r1) ← parseH24 s.data
  let r2 ← expectChar ':' r1
  let (m, r3) ← parseMin r2
  if r3.isEmpty then pure { hour := h, minute := m } else none

/-- The time-string normalization of agent.py lines 214-227: strip, attempt
the 12-hour parse first, fall back to the 24-hour parse on failure, `none` if
both fail. -/
def parse_time_str (s : String) : Option PyTime :=
  match strptime_IMp (pyStrip s) with
  | some t => some t
  | none => strptime_HM (pyStrip s)

/-- A single-quote character as a string (for reproducing Python message
texts that quote a value). -/
def squote : String := String.mk [Char.ofNat 39]

/-- The warning printed by agent.py line 210 when a date string fails to
parse. -/
def dateWarning (s : String) : String :=
  "Warning: Could not parse date " ++ squote ++ s ++ squote ++ ". Setting to None."

/-- The warning printed by agent.py lines 224-226 when a time string fails to
parse under both formats (the stripped string is interpolated). -/
def timeWarning (t : String) : String :=
  "Warning: Could not parse time " ++ squote ++ t ++ squote ++
    " using known formats. Setting to None."

/-- The closed sentiment set (models.py lines 12-16). -/
inductive SentimentEnum
  | POSITIVE
  | NEUTRAL
  | NEGATIVE
deriving DecidableEq, Repr

/-- The `.value` string of a `SentimentEnum` member. -/
def SentimentEnum.value : SentimentEnum → String
  | .POSITIVE => "Positive"
  | .NEUTRAL => "Neutral"
  | .NEGATIVE => "Negative"

/-- Lookup of a string in the closed sentiment set, as performed by pydantic
enum validation: exact, case-sensitive match against the member values. -/
def SentimentEnum.ofString (s : String) : Option SentimentEnum :=
  if s = "Positive" then some .POSITIVE
  else if s = "Neutral" then some .NEUTRAL
  else if s = "Negative" then some .NEGATIVE
  else none

/-- The structured candidate delivered by the model call: the field set of
`ExtractedInteractionInfo` (agent.py lines 30-68) at the JSON level, every
field optional, with `interaction_date` / `interaction_time` still free-form
strings and the sentiment an arbitrary string not yet checked against the
closed set (the spec's RawCandidate: the closed-set check of the pipeline is
applied when `ParseResponse` is constructed, agent.py line 232). -/
structure RawCandidate where
  hcp_name : Option String := none
  interaction_type : Option String := none
  interaction_date : Option String := none
  interaction_time : Option String := none
  attendees : Option (List String) := none
  topics_discussed : Option String := none
  materials_shared : Option (List String) := none
  samples_distributed : Option (List String) := none
  hcp_sentiment : Option String := none
  outcomes : Option String := none
  follow_up_actions : Option String := none
deriving DecidableEq, Repr

/-- A Python value occurring in the `extracted_data` dict: a string, a list
of strings, a parsed date or time (written by normalization), or `None`
(written by normalization on parse failure). -/
inductive PyVal
  | pstr (s : String)
  | plist (l : List String)
  | pdate (d : PyDate)
  | ptime (t : PyTime)
  | pnone
deriving DecidableEq, Repr

/-- The `extracted_data` dict of agent.py: one entry per schema field, where
`none` means the key is absent (dropped by `dict(exclude_none=True)`, line
152) and `some v` means the key is present with value `v`. -/
structure ExtractedData where
  hcp_name : Option PyVal := none
  interaction_type : Option PyVal := none
  interaction_date : Option PyVal := none
  interaction_time : Option PyVal := none
  attendees : Option PyVal := none
  topics_discussed : Option PyVal := none
  materials_shared : Option PyVal := none
  samples_distributed : Option PyVal := none
  hcp_sentiment : Option PyVal := none
  outcomes : Option PyVal := none
  follow_up_actions : Option PyVal := none
deriving DecidableEq, Repr

/-- `response.dict(exclude_none=True)` (agent.py line 152): the candidate as
a dict, fields that are `None` dropped. -/
def RawCandidate.toExtractedData (c : RawCandidate) : ExtractedData where
  hcp_name := c.hcp_name.map .pstr
  interaction_type := c.interaction_type.map .pstr
  interaction_date := c.interaction_date.map .pstr
  interaction_time := c.interaction_time.map .pstr
  attendees := c.attendees.map .plist
  topics_discussed := c.topics_discussed.map .pstr
  materials_shared := c.materials_shared.map .plist
  samples_distributed := c.samples_distributed.map .plist
  hcp_sentiment := c.hcp_sentiment.map .pstr
  outcomes := c.outcomes.map .pstr
  follow_up_actions := c.follow_up_actions.map .pstr

/-- Python truthiness of the dict: `if not extracted_data` (agent.py line
196) is taken exactly when the dict has no keys. -/
def ExtractedData.isEmpty (d : ExtractedData) : Bool :=
  d.hcp_name.isNone && d.interaction_type.isNone && d.interaction_date.isNone &&
  d.interaction_time.isNone && d.attendees.isNone && d.topics_discussed.isNone &&
  d.materials_shared.isNone && d.samples_distributed.isNone &&
  d.hcp_sentiment.isNone && d.outcomes.isNone && d.follow_up_actions.isNone

/-- A dict entry that carries no populated value: the key is absent or its
value is `None`. -/
def isNullVal : Option PyVal → Bool
  | none => true
  | some .pnone => true
  | some _ => false

/-- No field of the dict is populated (absent keys and `None` values both
count as unpopulated). -/
def ExtractedData.isAllNull (d : ExtractedData) : Bool :=
  isNullVal d.hcp_name && isNullVal d.interaction_type && isNullVal d.interaction_date &&
  isNullVal d.interaction_time && isNullVal d.attendees && isNullVal d.topics_discussed &&
  isNullVal d.materials_shared && isNullVal d.samples_distributed &&
  isNullVal d.hcp_sentiment && isNullVal d.outcomes && isNullVal d.follow_up_actions

/-- The date step of normalization (agent.py lines 204-211): if the key is
present with a string value, replace it by the parsed date, or by `None` with
a printed warning when the strict parse fails; any other entry is untouched.
The local `except (ValueError, TypeError)` absorbs the parse failure, so the
step never raises. -/
def normalize_interaction_date : Option PyVal → Option PyVal × List String
  | some (.pstr s) =>
    match strptime_Ymd s with
    | some d => (some (.pdate d), [])
    | none => (some .pnone, [dateWarning s])
  | v => (v, [])

/-- The time step of normalization (agent.py lines 213-228): if the key is
present with a string value, strip it, try the 12-hour parse, fall back to
the 24-hour parse, and store the parsed time or `None` with a printed warning;
any other entry is untouched. Both parse failures are absorbed locally. -/
def normalize_interaction_time : Option PyVal → Option PyVal × List String
  | some (.pstr s) =>
    match parse_time_str s with
    | some t => (some (.ptime t), [])
    | none => (some .pnone, [timeWarning (pyStrip s)])
  | v => (v, [])

/-- The whole Normalizing step (agent.py lines 203-229): the date and time
entries are rewritten, every other entry of the dict is untouched. Returns
the updated dict and the warnings printed (date warnings first, matching the
statement order of the source). -/
def normalize_extracted_data (d : ExtractedData) : ExtractedData × List String :=
  ({ d with
      interaction_date := (normalize_interaction_date d.interaction_date).1,
      interaction_time := (normalize_interaction_time d.interaction_time).1 },
    (normalize_interaction_date d.interaction_date).2 ++
      (normalize_interaction_time d.interaction_time).2)

/-- The canonical record returned by the parsing endpoint: `ParseResponse`
(models.py lines 60-66), which inherits exactly the eleven optional fields of
`InteractionBase` (models.py lines 18-30) and declares no error field. -/
structure ParseResponse where
  hcp_name : Option String := none
  interaction_type : Option String := none
  interaction_date : Option PyDate := none
  interaction_time : Option PyTime := none
  attendees : Option (List String) := none
  topics_discussed : Option String := none
  materials_shared : Option (List String) := none
  samples_distributed : Option (List String) := none
  hcp_sentiment : Option SentimentEnum := none
  outcomes : Option String := none
  follow_up_actions : Option String := none
deriving DecidableEq, Repr

/-- The record with every field `None`: the value pydantic produces for
`ParseResponse()` with no recognized keyword arguments (all fields default to
`None`). -/
def ParseResponse.allNull : ParseResponse := {}

/-- `ParseResponse(error=..., error_details=...)` at the failure returns of
agent.py (lines 191, 199, 240, 247): `ParseResponse` declares no such fields
and pydantic by default ignores unknown keyword arguments, so the constructed
instance is the all-null record whatever the arguments were. -/
def ParseResponse.ofErrorKwargs (_error : String) (_error_details : Option String) :
    ParseResponse :=
  ParseResponse.allNull

/-- Pydantic validation of an optional string field. -/
def validate_opt_str (field : String) : Option PyVal → Except String (Option String)
  | none => .ok none
  | some .pnone => .ok none
  | some (.pstr s) => .ok (some s)
  | some _ => .error (field ++ ": Input should be a valid string")

/-- Pydantic validation of an optional list-of-strings field (the list is
taken as-is). -/
def validate_opt_str_list (field : String) : Option PyVal → Except String (Option (List String))
  | none => .ok none
  | some .pnone => .ok none
  | some (.plist l) => .ok (some l)
  | some _ => .error (field ++ ": Input should be a valid list")

/-- Pydantic lax coercion of a string to a date: exactly `YYYY-MM-DD` with
two-digit month and day, calendar-validated. Unreachable through the
pipeline, because normalization always replaces a string date value before
construction, but included for faithfulness of `ParseResponse` validation. -/
def pydantic_str_to_date (s : String) : Option PyDate :=
  match s.data with
  | [y1, y2, y3, y4, h1, m1, m2, h2, d1, d2] => do
    let a ← charToDigit y1
    let b ← charToDigit y2
    let c ← charToDigit y3
    let e ← charToDigit y4
    let f ← charToDigit m1
    let g ← charToDigit m2
    let i ← charToDigit d1
    let j ← charToDigit d2
    let y := 1000 * a + 100 * b + 10 * c + e
    let m := 10 * f + g
    let d := 10 * i + j
    if h1 = '-' ∧ h2 = '-' ∧ 1 ≤ m ∧ m ≤ 12 ∧ 1 ≤ d ∧ d ≤ daysInMonth y m ∧ 1 ≤ y then
      pure ⟨y, m, d⟩
    else none
  | _ => none

/-- Pydantic lax coercion of a string to a time: `HH:MM` or `HH:MM:SS` with
two-digit components in range. Unreachable through the pipeline, for the same
reason as the date coercion. -/
def pydantic_str_to_time (s : String) : Option PyTime :=
  match s.data with
  | [h1, h2, c, m1, m2] => do
    let a ← charToDigit h1
    let b ← charToDigit h2
    let f ← charToDigit m1
    let g ← charToDigit m2
    let h := 10 * a + b
    let m := 10 * f + g
    if c = ':' ∧ h ≤ 23 ∧ m ≤ 59 then pure ⟨h, m⟩ else none
  | [h1, h2, c, m1, m2, c2, s1, s2] => do
    let a ← charToDigit h1
    let b ← charToDigit h2
    let f ← charToDigit m1
    let g ← charToDigit m2
    let i ← charToDigit s1
    let j ← charToDigit s2
    let h := 10 * a + b
    let m := 10 * f + g
    if c = ':' ∧ c2 = ':' ∧ h ≤ 23 ∧ m ≤ 59 ∧ 10 * i + j ≤ 59 then pure ⟨h, m⟩ else none
  | _ => none

/-- Pydantic validation of the optional date field. -/
def validate_opt_date : Option PyVal → Except String (Option PyDate)
  | none => .ok none
  | some .pnone => .ok none
  | some (.pdate d) => .ok (some d)
  | some (.pstr s) =>
    match pydantic_str_to_date s with
    | some d => .ok (some d)
    | none => .error "interaction_date: Input should be a valid date"
  | some _ => .error "interaction_date: Input should be a valid date"

/-- Pydantic validation of the optional time field. -/
def validate_opt_time : Option PyVal → Except String (Option PyTime)
  | none => .ok none
  | some .pnone => .ok none
  | some (.ptime t) => .ok (some t)
  | some (.pstr s) =>
    match pydantic_str_to_time s with
    | some t => .ok (some t)
    | none => .error "interaction_time: Input should be a valid time"
  | some _ => .error "interaction_time: Input should be a valid time"

/-- The head of the pydantic enum error message, up to and including the
opening quote of the interpolated offending value. -/
def sentimentErrorHead : String :=
  "hcp_sentiment: Input should be " ++ squote ++ "Positive" ++ squote ++ ", " ++
    squote ++ "Neutral" ++ squote ++ " or " ++ squote ++ "Negative" ++ squote ++
    " [type=enum, input_value=" ++ squote

/-- The tail of the pydantic enum error message, after the interpolated
offending value. -/
def sentimentErrorTail : String := squote ++ ", input_type=str]"

/-- The pydantic v2 enum validation error text for an offending sentiment
string: the offending value is interpolated into the message
(`input_value='...'`). -/
def sentimentErrorMsg (s : String) : String :=
  sentimentErrorHead ++ s ++ sentimentErrorTail

/-- Pydantic validation of the sentiment field against the closed enum: a
string is accepted exactly when it equals one of the three member values; any
other string raises a validation error whose message carries the offending
value; no coercion is attempted. -/
def validate_sentiment : Option PyVal → Except String (Option SentimentEnum)
  | none => .ok none
  | some .pnone => .ok none
  | some (.pstr s) =>
    match SentimentEnum.ofString s with
    | some v => .ok (some v)
    | none => .error (sentimentErrorMsg s)
  | some _ => .error "hcp_sentiment: Input should be a valid string"

/-- `ParseResponse(**extracted_data)` (agent.py line 232): pydantic validates
each supplied entry against the field type and raises on the first violation
(an `Except.error` here, modelling the raised `ValidationError` that the
enclosing `except` catches). -/
def ParseResponse.ofExtractedData (d : ExtractedData) : Except String ParseResponse := do
  let hcp_name ← validate_opt_str "hcp_name" d.hcp_name
  let interaction_type ← validate_opt_str "interaction_type" d.interaction_type
  let interaction_date ← validate_opt_date d.interaction_date
  let interaction_time ← validate_opt_time d.interaction_time
  let attendees ← validate_opt_str_list "attendees" d.attendees
  let topics_discussed ← validate_opt_str "topics_discussed" d.topics_discussed
  let materials_shared ← validate_opt_str_list "materials_shared" d.materials_shared
  let samples_distributed ← validate_opt_str_list "samples_distributed" d.samples_distributed
  let hcp_sentiment ← validate_sentiment d.hcp_sentiment
  let outcomes ← validate_opt_str "outcomes" d.outcomes
  let follow_up_actions ← validate_opt_str "follow_up_actions" d.follow_up_actions
  pure { hcp_name, interaction_type, interaction_date, interaction_time, attendees,
         topics_discussed, materials_shared, samples_distributed, hcp_sentiment,
         outcomes, follow_up_actions }

/-- The graph state (agent.py lines 15-26). -/
structure GraphState where
  original_text : String
  extracted_data : Option ExtractedData := none
  error_message : Option String := none

/-- The fixed prompt text preceding the embedded interaction description in
the f-string of agent.py lines 103-140 (the instruction list and the schema
description between the head shown here and the final quote are abbreviated:
no claim depends on their exact wording, only on the fact that the input text
is interpolated between two fixed strings). -/
def promptHead : String :=
  "\nYou are an expert information extractor. Your task is to extract information " ++
    "from interaction descriptions and format it as a JSON object. [instructions " ++
    "and schema omitted] Interaction Description:\n\""

/-- The fixed prompt text following the embedded interaction description. -/
def promptTail : String := "\"\n"

/-- The per-request prompt: the input text interpolated by the f-string
between the fixed head and tail, with no escaping (agent.py line 139). Plain
string concatenation: total for every input text. -/
def build_prompt (text : String) : String :=
  promptHead ++ text ++ promptTail

/-- The model service behind `structured_llm.ainvoke` (agent.py line 147), as
an oracle: for a prompt it either returns a structured candidate or raises an
exception with message `str(e)`. -/
abbrev Model : Type := String → Except String RawCandidate

/-- The node `call_extraction_model` (agent.py lines 91-160): invoke the
model on the built prompt; on success store the candidate dict (fields that
are `None` excluded) and clear the error; on any exception store the error
message `"Error during LLM call: " + str(e)` and no data. The node catches
every exception itself, so it is total. -/
def call_extraction_model (model : Model) (state : GraphState) : GraphState :=
  match model (build_prompt state.original_text) with
  | .ok response =>
    { state with extracted_data := some response.toExtractedData, error_message := none }
  | .error e =>
    { state with extracted_data := none,
                 error_message := some ("Error during LLM call: " ++ e) }

/-- `app_graph.ainvoke` (agent.py lines 163-168): the compiled graph has the
single node `extract_info` wired entry -> extract_info -> END, so one
invocation executes the node exactly once. Returns the final state and the
number of model calls issued. -/
def app_graph_invoke (model : Model) (state : GraphState) : GraphState × Nat :=
  (call_extraction_model model state, 1)

/-- The pipeline steps named by the spec state machine. -/
inductive Step
  | calling
  | normalizing
  | validating
deriving DecidableEq, Repr

/-- Which return site of `run_interaction_parser` was taken.
`success` is the validated-record return (line 233); `agentError` is the
workflow-error return (line 191, the kind the spec calls ModelCallFailed);
`noData` is the empty-extraction return (line 199, NoDataExtracted);
`validationError` is the pydantic-failure return (line 240, ValidationFailed,
carrying the `error_details` string); `execError` is the outer catch-all
return (line 247). -/
inductive Branch
  | success (r : ParseResponse)
  | agentError (error : String)
  | noData
  | validationError (error_details : String)
  | execError (error_details : String)
deriving DecidableEq, Repr

/-- Whether the run took the validated-record return. -/
def Branch.isSuccess : Branch → Bool
  | .success _ => true
  | _ => false

/-- The observable outcome of one orchestrator run: the returned
`ParseResponse`, the return site taken, the steps executed, the warnings
printed by normalization, and the number of model calls issued. -/
structure RunResult where
  branch : Branch
  response : ParseResponse
  steps : List Step
  warnings : List String
  modelCalls : Nat
deriving DecidableEq, Repr

/-- The body of `run_interaction_parser` inside its outer `try` (agent.py
lines 183-240), returning `Except.error` if an exception were to escape the
body. Every fallible sub-step is handled exactly where the source handles it:
the model call's exceptions inside the node, the normalization failures
locally (degrading to `None`), and the pydantic `ValidationError` by the
inner `except` (the `.error` arm of the match on
`ParseResponse.ofExtractedData`), so the body itself never raises. -/
def run_interaction_parse_attempt (model : Model) (text : String) :
    Except String RunResult :=
  let inputs : GraphState := { original_text := text }
  let (final_state, calls) := app_graph_invoke model inputs
  match final_state.error_message with
  | some msg =>
    .ok { branch := .agentError msg,
          response := ParseResponse.ofErrorKwargs msg none,
          steps := [.calling], warnings := [], modelCalls := calls }
  | none =>
    match final_state.extracted_data with
    | none =>
      .ok { branch := .noData,
            response := ParseResponse.ofErrorKwargs "No data extracted" none,
            steps := [.calling], warnings := [], modelCalls := calls }
    | some extracted_data =>
      if extracted_data.isEmpty then
        .ok { branch := .noData,
              response := ParseResponse.ofErrorKwargs "No data extracted" none,
              steps := [.calling], warnings := [], modelCalls := calls }
      else
        match ParseResponse.ofExtractedData (normalize_extracted_data extracted_data).1 with
        | .ok response_obj =>
          .ok { branch := .success response_obj, response := response_obj,
                steps := [.calling, .normalizing, .validating],
                warnings := (normalize_extracted_data extracted_data).2,
                modelCalls := calls }
        | .error validation_error =>
          .ok { branch := .validationError validation_error,
                response := ParseResponse.ofErrorKwargs "Validation error" (some validation_error),
                steps := [.calling, .normalizing, .validating],
                warnings := (normalize_extracted_data extracted_data).2,
                modelCalls := calls }

/-- `run_interaction_parser` (agent.py lines 172-247; the source name ends in
a token the verification environment reserves, hence the clipped Lean name):
the body above under the outer catch-all `except`, which turns any escaping
exception into the agent-execution-error return (line 247). Total: always
returns a `RunResult`. -/
def run_interaction_parse (model : Model) (text : String) : RunResult :=
  match run_interaction_parse_attempt model text with
  | .ok r => r
  | .error e =>
    { branch := .execError e,
      response := ParseResponse.ofErrorKwargs "Agent execution error" (some e),
      steps := [], warnings := [], modelCalls := 0 }

/-! Rendering helpers for universally-quantified format statements. -/

/-- The two zero-padded decimal digits of `n < 100`. -/
def two_digit (n : Nat) : List Char :=
  [Nat.digitChar (n / 10), Nat.digitChar (n % 10)]

/-- The four zero-padded decimal digits of `n < 10000`. -/
def four_digit (n : Nat) : List Char :=
  [Nat.digitChar (n / 1000), Nat.digitChar (n / 100 % 10), Nat.digitChar (n / 10 % 10),
   Nat.digitChar (n % 10)]

/-- A 24-hour `HH:MM` string. -/
def render24 (h m : Nat) : String :=
  String.mk (two_digit h ++ ':' :: two_digit m)

/-- A 12-hour `HH:MM` string followed by one space and a meridiem marker. -/
def render12 (h m : Nat) (mer : List Char) : String :=
  String.mk (two_digit h ++ ':' :: (two_digit m ++ ' ' :: mer))

/-- A `YYYY-MM-DD` date string. -/
def renderDate (y m d : Nat) : String :=
  String.mk (four_digit y ++ '-' :: (two_digit m ++ '-' :: two_digit d))

/-- The candidate with no field populated: what the model returns for
degenerate input. -/
def emptyCandidate : RawCandidate := {}

/-- A candidate whose only populated field is an unparseable date string:
nonempty as a raw dict, all-null after normalization. -/
def badDateCandidate : RawCandidate := { interaction_date := some "not-a-date" }

/-- A fully populated well-formed candidate, used to witness pass-through. -/
def fullCandidate : RawCandidate where
  hcp_name := some "Dr. Smith"
  interaction_type := some "Meeting"
  interaction_date := some "2024-03-14"
  interaction_time := some "02:30 PM"
  attendees := some ["Dr. Smith", "Rep"]
  topics_discussed := some "dosing guidelines"
  materials_shared := some ["brochure"]
  samples_distributed := some ["sample 10mg"]
  hcp_sentiment := some "Positive"
  outcomes := some "agreed to trial"
  follow_up_actions := some "send data"

/-- A candidate carrying a sentiment outside the closed set. -/
def mixedSentimentCandidate : RawCandidate :=
  { hcp_name := some "Dr. Smith", hcp_sentiment := some "Mixed" }

/-- The record the pipeline produces for `fullCandidate`. -/
def fullResponse : ParseResponse where
  hcp_name := some "Dr. Smith"
  interaction_type := some "Meeting"
  interaction_date := some ⟨2024, 3, 14⟩
  interaction_time := some ⟨14, 30⟩
  attendees := some ["Dr. Smith", "Rep"]
  topics_discussed := some "dosing guidelines"
  materials_shared := some ["brochure"]
  samples_distributed := some ["sample 10mg"]
  hcp_sentiment := some .POSITIVE
  outcomes := some "agreed to trial"
  follow_up_actions := some "send data"

/-! ### Helper lemmas: digits and directive parsers -/

theorem charToDigit_digitChar {n : Nat} (h : n ≤ 9) :
    charToDigit (Nat.digitChar n) = some n := by
  interval_cases n <;> decide

theorem isPySpace_digitChar {n : Nat} (h : n ≤ 9) :
    isPySpace (Nat.digitChar n) = false := by
  interval_cases n <;> decide

theorem digitChar_ne_colon {n : Nat} (h : n ≤ 9) :
    (Nat.digitChar n = ':') = False := by
  interval_cases n <;> decide

theorem parse1to12_two_digit {n : Nat} (h1 : 1 ≤ n) (h2 : n ≤ 12) (rest : List Char) :
    parse1to12 (two_digit n ++ rest) = some (n, rest) := by
  have hd1 : charToDigit (Nat.digitChar (n / 10)) = some (n / 10) :=
    charToDigit_digitChar (by omega)
  have hd2 : charToDigit (Nat.digitChar (n % 10)) = some (n % 10) :=
    charToDigit_digitChar (by omega)
  simp only [two_digit, List.cons_append, List.nil_append, parse1to12, hd1, hd2]
  split_ifs with hA hB hC
  · simp only [Option.some.injEq, Prod.mk.injEq]; exact ⟨by omega, trivial⟩
  · simp only [Option.some.injEq, Prod.mk.injEq]; exact ⟨by omega, trivial⟩
  · exfalso; omega
  · exfalso; omega

theorem parseH24_two_digit {n : Nat} (h2 : n ≤ 23) (rest : List Char) :
    parseH24 (two_digit n ++ rest) = some (n, rest) := by
  have hd1 : charToDigit (Nat.digitChar (n / 10)) = some (n / 10) :=
    charToDigit_digitChar (by omega)
  have hd2 : charToDigit (Nat.digitChar (n % 10)) = some (n % 10) :=
    charToDigit_digitChar (by omega)
  simp only [two_digit, List.cons_append, List.nil_append, parseH24, hd1, hd2]
  split_ifs with hA hB
  · simp only [Option.some.injEq, Prod.mk.injEq]; exact ⟨by omega, trivial⟩
  · simp only [Option.some.injEq, Prod.mk.injEq]; exact ⟨by omega, trivial⟩
  · exfalso; omega

theorem parseMin_two_digit {n : Nat} (h2 : n ≤ 59) (rest : List Char) :
    parseMin (two_digit n ++ rest) = some (n, rest) := by
  have hd1 : charToDigit (Nat.digitChar (n / 10)) = some (n / 10) :=
    charToDigit_digitChar (by omega)
  have hd2 : charToDigit (Nat.digitChar (n % 10)) = some (n % 10) :=
    charToDigit_digitChar (by omega)
  simp only [two_digit, List.cons_append, List.nil_append, parseMin, hd1, hd2]
  split_ifs with hA
  · simp only [Option.some.injEq, Prod.mk.injEq]; exact ⟨by omega, trivial⟩
  · exfalso; omega

theorem parseDay_two_digit {n : Nat} (h1 : 1 ≤ n) (h2 : n ≤ 31) (rest : List Char) :
    parseDay (two_digit n ++ rest) = some (n, rest) := by
  have hd1 : charToDigit (Nat.digitChar (n / 10)) = some (n / 10) :=
    charToDigit_digitChar (by omega)
  have hd2 : charToDigit (Nat.digitChar (n % 10)) = some (n % 10) :=
    charToDigit_digitChar (by omega)
  simp only [two_digit, List.cons_append, List.nil_append, parseDay, hd1, hd2]
  split_ifs with hA hB hC hD
  · simp only [Option.some.injEq, Prod.mk.injEq]; exact ⟨by omega, trivial⟩
  · simp only [Option.some.injEq, Prod.mk.injEq]; exact ⟨by omega, trivial⟩
  · simp only [Option.some.injEq, Prod.mk.injEq]; exact ⟨by omega, trivial⟩
  · exfalso; omega
  · exfalso; omega

theorem parseY_four_digit {n : Nat} (h : n ≤ 9999) (rest : List Char) :
    parseY (four_digit n ++ rest) = some (n, rest) := by
  have hd1 : charToDigit (Nat.digitChar (n / 1000)) = some (n / 1000) :=
    charToDigit_digitChar (by omega)
  have hd2 : charToDigit (Nat.digitChar (n / 100 % 10)) = some (n / 100 % 10) :=
    charToDigit_digitChar (by omega)
  have hd3 : charToDigit (Nat.digitChar (n / 10 % 10)) = some (n / 10 % 10) :=
    charToDigit_digitChar (by omega)
  have hd4 : charToDigit (Nat.digitChar (n % 10)) = some (n % 10) :=
    charToDigit_digitChar (by omega)
  simp [four_digit, parseY, hd1, hd2, hd3, hd4, Option.bind]
  omega

/-! ### Helper lemmas: stripping and format renderings -/

theorem pyStrip_eq_self {l : List Char} (h1 : ∀ c, l.head? = some c → isPySpace c = false)
    (h2 : ∀ c, l.getLast? = some c → isPySpace c = false) :
    pyStrip (String.mk l) = String.mk l := by
  cases l with
  | nil => rfl
  | cons a t =>
    have ha : isPySpace a = false := h1 a rfl
    have hd1 : List.dropWhile isPySpace (a :: t) = a :: t := by
      simp [List.dropWhile_cons, ha]
    cases hr : (a :: t).reverse with
    | nil => simp at hr
    | cons b rb =>
      have hb : isPySpace b = false := by
        apply h2
        rw [← List.head?_reverse, hr]; rfl
      have hd2 : List.dropWhile isPySpace (b :: rb) = b :: rb := by
        simp [List.dropWhile_cons, hb]
      show String.mk ((((a :: t).dropWhile isPySpace).reverse.dropWhile isPySpace).reverse)
          = String.mk (a :: t)
      rw [hd1, hr, hd2, ← hr, List.reverse_reverse]

theorem pyStrip_render24 (h m : Nat) (hh : h ≤ 23) (_hm : m ≤ 59) :
    pyStrip (render24 h m) = render24 h m := by
  refine pyStrip_eq_self ?_ ?_
  · intro c hc
    have e : (two_digit h ++ ':' :: two_digit m).head? = some (Nat.digitChar (h / 10)) := rfl
    rw [e] at hc
    obtain rfl := (Option.some.inj hc).symm
    exact isPySpace_digitChar (by omega)
  · intro c hc
    have e : (two_digit h ++ ':' :: two_digit m).getLast? = some (Nat.digitChar (m % 10)) := rfl
    rw [e] at hc
    obtain rfl := (Option.some.inj hc).symm
    exact isPySpace_digitChar (by omega)

theorem pyStrip_render12 (h m : Nat) (c1 c2 : Char) (hh : h ≤ 23) (_hm : m ≤ 59)
    (hc2 : c2 = 'M' ∨ c2 = 'm') :
    pyStrip (render12 h m [c1, c2]) = render12 h m [c1, c2] := by
  refine pyStrip_eq_self ?_ ?_
  · intro c hc
    have e : (two_digit h ++ ':' :: (two_digit m ++ ' ' :: [c1, c2])).head?
        = some (Nat.digitChar (h / 10)) := rfl
    rw [e] at hc
    obtain rfl := (Option.some.inj hc).symm
    exact isPySpace_digitChar (by omega)
  · intro c hc
    have e : (two_digit h ++ ':' :: (two_digit m ++ ' ' :: [c1, c2])).getLast? = some c2 := rfl
    rw [e] at hc
    obtain rfl := (Option.some.inj hc).symm
    rcases hc2 with rfl | rfl <;> decide

theorem strptime_IMp_render12_am (h m : Nat) (c1 c2 : Char) (h1 : 1 ≤ h) (h2 : h ≤ 12)
    (hm : m ≤ 59) (hc1 : c1 = 'A' ∨ c1 = 'a') (hc2 : c2 = 'M' ∨ c2 = 'm') :
    strptime_IMp (render12 h m [c1, c2]) = some ⟨if h = 12 then 0 else h, m⟩ := by
  have hMin := parseMin_two_digit hm (' ' :: [c1, c2])
  rcases hc1 with rfl | rfl <;> rcases hc2 with rfl | rfl <;>
    simp [strptime_IMp, render12, parse1to12_two_digit h1 h2, Option.bind, expectChar,
      hMin, skipWs1, isPySpace, List.dropWhile, parseAmPm]

theorem strptime_IMp_render12_pm (h m : Nat) (c1 c2 : Char) (h1 : 1 ≤ h) (h2 : h ≤ 12)
    (hm : m ≤ 59) (hc1 : c1 = 'P' ∨ c1 = 'p') (hc2 : c2 = 'M' ∨ c2 = 'm') :
    strptime_IMp (render12 h m [c1, c2]) = some ⟨if h = 12 then 12 else h + 12, m⟩ := by
  have hMin := parseMin_two_digit hm (' ' :: [c1, c2])
  rcases hc1 with rfl | rfl <;> rcases hc2 with rfl | rfl <;>
    simp [strptime_IMp, render12, parse1to12_two_digit h1 h2, Option.bind, expectChar,
      hMin, skipWs1, isPySpace, List.dropWhile, parseAmPm]

theorem strptime_IMp_render24 (h m : Nat) (hh : h ≤ 23) (hm : m ≤ 59) :
    strptime_IMp (render24 h m) = none := by
  have hd1 : charToDigit (Nat.digitChar (h / 10)) = some (h / 10) :=
    charToDigit_digitChar (by omega)
  have hd2 : charToDigit (Nat.digitChar (h % 10)) = some (h % 10) :=
    charToDigit_digitChar (by omega)
  have hm1 : charToDigit (Nat.digitChar (m / 10)) = some (m / 10) :=
    charToDigit_digitChar (by omega)
  have hm2 : charToDigit (Nat.digitChar (m % 10)) = some (m % 10) :=
    charToDigit_digitChar (by omega)
  have hm5 : m / 10 ≤ 5 := by omega
  have hnc : (Nat.digitChar (h % 10) = ':') = False := digitChar_ne_colon (by omega)
  simp only [strptime_IMp, render24, two_digit, List.cons_append, List.nil_append,
    parse1to12, hd1, hd2]
  split_ifs with b1 b2 b3
  · simp [Option.bind, expectChar, parseMin, hm1, hm2, hm5, skipWs1]
  · simp [Option.bind, expectChar, parseMin, hm1, hm2, hm5, skipWs1]
  · simp [Option.bind, expectChar, hnc]
  · simp

theorem strptime_HM_render24 (h m : Nat) (hh : h ≤ 23) (hm : m ≤ 59) :
    strptime_HM (render24 h m) = some ⟨h, m⟩ := by
  have hMin := parseMin_two_digit hm ([] : List Char)
  rw [List.append_nil] at hMin
  simp [strptime_HM, render24, parseH24_two_digit hh, Option.bind, expectChar, hMin]

theorem daysInMonth_le_31 (y m : Nat) : daysInMonth y m ≤ 31 := by
  unfold daysInMonth
  split_ifs <;> omega

theorem strptime_Ymd_renderDate (y m d : Nat) (hy1 : 1 ≤ y) (hy : y ≤ 9999) (hm1 : 1 ≤ m)
    (hm2 : m ≤ 12) (hd1 : 1 ≤ d) (hd2 : d ≤ daysInMonth y m) :
    strptime_Ymd (renderDate y m d) = some ⟨y, m, d⟩ := by
  have hd31 : d ≤ 31 := le_trans hd2 (daysInMonth_le_31 y m)
  have hDay := parseDay_two_digit hd1 hd31 ([] : List Char)
  rw [List.append_nil] at hDay
  simp [strptime_Ymd, renderDate, parseY_four_digit hy, Option.bind, expectChar,
    parse1to12_two_digit hm1 hm2, hDay, hy1, hd2]

theorem parse_time_str_render24 (h m : Nat) (hh : h ≤ 23) (hm : m ≤ 59) :
    parse_time_str (render24 h m) = some ⟨h, m⟩ := by
  simp [parse_time_str, pyStrip_render24 h m hh hm, strptime_IMp_render24 h m hh hm,
    strptime_HM_render24 h m hh hm]

theorem parse_time_str_render12_am (h m : Nat) (c1 c2 : Char) (h1 : 1 ≤ h) (h2 : h ≤ 12)
    (hm : m ≤ 59) (hc1 : c1 = 'A' ∨ c1 = 'a') (hc2 : c2 = 'M' ∨ c2 = 'm') :
    parse_time_str (render12 h m [c1, c2]) = some ⟨if h = 12 then 0 else h, m⟩ := by
  simp [parse_time_str, pyStrip_render12 h m c1 c2 (by omega) hm hc2,
    strptime_IMp_render12_am h m c1 c2 h1 h2 hm hc1 hc2]

theorem parse_time_str_render12_pm (h m : Nat) (c1 c2 : Char) (h1 : 1 ≤ h) (h2 : h ≤ 12)
    (hm : m ≤ 59) (hc1 : c1 = 'P' ∨ c1 = 'p') (hc2 : c2 = 'M' ∨ c2 = 'm') :
    parse_time_str (render12 h m [c1, c2]) = some ⟨if h = 12 then 12 else h + 12, m⟩ := by
  simp [parse_time_str, pyStrip_render12 h m c1 c2 (by omega) hm hc2,
    strptime_IMp_render12_pm h m c1 c2 h1 h2 hm hc1 hc2]

/-! ### Helper lemmas: validation of candidate-shaped data -/

theorem validate_opt_str_map (f : String) (o : Option String) :
    validate_opt_str f (o.map .pstr) = .ok o := by
  cases o <;> rfl

theorem validate_opt_str_list_map (f : String) (o : Option (List String)) :
    validate_opt_str_list f (o.map .plist) = .ok o := by
  cases o <;> rfl

theorem validate_opt_date_normalized (o : Option String) :
    validate_opt_date (normalize_interaction_date (o.map .pstr)).1 =
      .ok (o.bind strptime_Ymd) := by
  cases o with
  | none => rfl
  | some s =>
    cases h : strptime_Ymd s <;>
      simp [normalize_interaction_date, h, validate_opt_date, Option.bind]

theorem validate_opt_time_normalized (o : Option String) :
    validate_opt_time (normalize_interaction_time (o.map .pstr)).1 =
      .ok (o.bind parse_time_str) := by
  cases o with
  | none => rfl
  | some s =>
    cases h : parse_time_str s <;>
      simp [normalize_interaction_time, h, validate_opt_time, Option.bind]

theorem ofString_value {s : String} {v : SentimentEnum}
    (h : SentimentEnum.ofString s = some v) : v.value = s := by
  unfold SentimentEnum.ofString at h
  split_ifs at h with h1 h2 h3
  · have hv := (Option.some.inj h).symm
    subst hv
    rw [h1]; rfl
  · have hv := (Option.some.inj h).symm
    subst hv
    rw [h2]; rfl
  · have hv := (Option.some.inj h).symm
    subst hv
    rw [h3]; rfl

/-- Validating the normalized dict of a candidate: every field but the
sentiment always passes, so the outcome is decided by the sentiment string
alone, and on success the record carries the candidate fields with the
date/time fields replaced by their parses. -/
theorem ofExtractedData_normalized_candidate (c : RawCandidate) :
    ParseResponse.ofExtractedData (normalize_extracted_data c.toExtractedData).1 =
      match c.hcp_sentiment with
      | none =>
        .ok { hcp_name := c.hcp_name, interaction_type := c.interaction_type,
              interaction_date := c.interaction_date.bind strptime_Ymd,
              interaction_time := c.interaction_time.bind parse_time_str,
              attendees := c.attendees, topics_discussed := c.topics_discussed,
              materials_shared := c.materials_shared,
              samples_distributed := c.samples_distributed,
              hcp_sentiment := none, outcomes := c.outcomes,
              follow_up_actions := c.follow_up_actions }
      | some s =>
        match SentimentEnum.ofString s with
        | some v =>
          .ok { hcp_name := c.hcp_name, interaction_type := c.interaction_type,
                interaction_date := c.interaction_date.bind strptime_Ymd,
                interaction_time := c.interaction_time.bind parse_time_str,
                attendees := c.attendees, topics_discussed := c.topics_discussed,
                materials_shared := c.materials_shared,
                samples_distributed := c.samples_distributed,
                hcp_sentiment := some v, outcomes := c.outcomes,
                follow_up_actions := c.follow_up_actions }
        | none => .error (sentimentErrorMsg s) := by
  have hdict : (normalize_extracted_data c.toExtractedData).1 =
      { hcp_name := c.hcp_name.map .pstr,
        interaction_type := c.interaction_type.map .pstr,
        interaction_date := (normalize_interaction_date (c.interaction_date.map .pstr)).1,
        interaction_time := (normalize_interaction_time (c.interaction_time.map .pstr)).1,
        attendees := c.attendees.map .plist,
        topics_discussed := c.topics_discussed.map .pstr,
        materials_shared := c.materials_shared.map .plist,
        samples_distributed := c.samples_distributed.map .plist,
        hcp_sentiment := c.hcp_sentiment.map .pstr,
        outcomes := c.outcomes.map .pstr,
        follow_up_actions := c.follow_up_actions.map .pstr } := rfl
  rw [hdict]
  cases hs : c.hcp_sentiment with
  | none =>
    simp [ParseResponse.ofExtractedData, validate_opt_str_map, validate_opt_str_list_map,
      validate_opt_date_normalized, validate_opt_time_normalized, validate_sentiment,
      Bind.bind, Except.bind, pure, Except.pure]
  | some s =>
    cases hv : SentimentEnum.ofString s with
    | none =>
      simp [ParseResponse.ofExtractedData, validate_opt_str_map, validate_opt_str_list_map,
        validate_opt_date_normalized, validate_opt_time_normalized, validate_sentiment,
        hv, Bind.bind, Except.bind, pure, Except.pure]
    | some v =>
      simp [ParseResponse.ofExtractedData, validate_opt_str_map, validate_opt_str_list_map,
        validate_opt_date_normalized, validate_opt_time_normalized, validate_sentiment,
        hv, Bind.bind, Except.bind, pure, Except.pure]

/-! ### Helper lemmas: emptiness -/

theorem isNullVal_of_isNone {o : Option PyVal} (h : o.isNone = true) :
    isNullVal o = true := by
  cases o <;> simp_all [isNullVal]

theorem isNullVal_map_pstr (o : Option String) : isNullVal (o.map .pstr) = o.isNone := by
  cases o <;> rfl

theorem isNullVal_map_plist (o : Option (List String)) :
    isNullVal (o.map .plist) = o.isNone := by
  cases o <;> rfl

/-- On a raw candidate dict (no `None` values), being all-null is the same as
the dict being empty. -/
theorem toExtractedData_isAllNull (c : RawCandidate) :
    c.toExtractedData.isAllNull = c.toExtractedData.isEmpty := by
  simp [RawCandidate.toExtractedData, ExtractedData.isAllNull, ExtractedData.isEmpty,
    isNullVal_map_pstr, isNullVal_map_plist]

theorem normalize_null_date {v : Option PyVal} (h : isNullVal v = true) :
    normalize_interaction_date v = (v, []) := by
  cases v with
  | none => rfl
  | some pv => cases pv <;> simp_all [isNullVal, normalize_interaction_date]

theorem normalize_null_time {v : Option PyVal} (h : isNullVal v = true) :
    normalize_interaction_time v = (v, []) := by
  cases v with
  | none => rfl
  | some pv => cases pv <;> simp_all [isNullVal, normalize_interaction_time]

theorem normalize_preserves_isAllNull {d : ExtractedData} (h : d.isAllNull = true) :
    (normalize_extracted_data d).1.isAllNull = true := by
  unfold ExtractedData.isAllNull at h
  simp only [Bool.and_eq_true] at h
  obtain ⟨⟨⟨⟨⟨⟨⟨⟨⟨⟨h1, h2⟩, h3⟩, h4⟩, h5⟩, h6⟩, h7⟩, h8⟩, h9⟩, h10⟩, h11⟩ := h
  simp [normalize_extracted_data, normalize_null_date h3, normalize_null_time h4,
    ExtractedData.isAllNull, h1, h2, h3, h4, h5, h6, h7, h8, h9, h10, h11]

theorem isEmpty_isAllNull {d : ExtractedData} (h : d.isEmpty = true) :
    d.isAllNull = true := by
  unfold ExtractedData.isEmpty at h
  unfold ExtractedData.isAllNull
  simp only [Bool.and_eq_true] at h ⊢
  obtain ⟨⟨⟨⟨⟨⟨⟨⟨⟨⟨h1, h2⟩, h3⟩, h4⟩, h5⟩, h6⟩, h7⟩, h8⟩, h9⟩, h10⟩, h11⟩ := h
  exact ⟨⟨⟨⟨⟨⟨⟨⟨⟨⟨isNullVal_of_isNone h1, isNullVal_of_isNone h2⟩, isNullVal_of_isNone h3⟩,
    isNullVal_of_isNone h4⟩, isNullVal_of_isNone h5⟩, isNullVal_of_isNone h6⟩,
    isNullVal_of_isNone h7⟩, isNullVal_of_isNone h8⟩, isNullVal_of_isNone h9⟩,
    isNullVal_of_isNone h10⟩, isNullVal_of_isNone h11⟩

theorem isEmpty_false_of_sentiment {c : RawCandidate} {s : String}
    (h : c.hcp_sentiment = some s) : c.toExtractedData.isEmpty = false := by
  simp [RawCandidate.toExtractedData, ExtractedData.isEmpty, h]

theorem isEmpty_false_of_date {c : RawCandidate} {s : String}
    (h : c.interaction_date = some s) : c.toExtractedData.isEmpty = false := by
  simp [RawCandidate.toExtractedData, ExtractedData.isEmpty, h]

/-! ### Helper lemmas: characterizing the orchestrator run -/

theorem attempt_model_error (model : Model) (text : String) (e : String)
    (hm : model (build_prompt text) = .error e) :
    run_interaction_parse_attempt model text =
      .ok { branch := .agentError ("Error during LLM call: " ++ e),
            response := ParseResponse.allNull, steps := [.calling], warnings := [],
            modelCalls := 1 } := by
  simp [run_interaction_parse_attempt, app_graph_invoke, call_extraction_model, hm,
    ParseResponse.ofErrorKwargs]

theorem attempt_model_ok_empty (model : Model) (text : String) (c : RawCandidate)
    (hm : model (build_prompt text) = .ok c) (he : c.toExtractedData.isEmpty = true) :
    run_interaction_parse_attempt model text =
      .ok { branch := .noData, response := ParseResponse.allNull, steps := [.calling],
            warnings := [], modelCalls := 1 } := by
  simp [run_interaction_parse_attempt, app_graph_invoke, call_extraction_model, hm, he,
    ParseResponse.ofErrorKwargs]

theorem attempt_model_ok_success (model : Model) (text : String) (c : RawCandidate)
    (r : ParseResponse) (hm : model (build_prompt text) = .ok c)
    (he : c.toExtractedData.isEmpty = false)
    (hv : ParseResponse.ofExtractedData (normalize_extracted_data c.toExtractedData).1
      = .ok r) :
    run_interaction_parse_attempt model text =
      .ok { branch := .success r, response := r,
            steps := [.calling, .normalizing, .validating],
            warnings := (normalize_extracted_data c.toExtractedData).2, modelCalls := 1 } := by
  simp [run_interaction_parse_attempt, app_graph_invoke, call_extraction_model, hm, he, hv]

theorem attempt_model_ok_invalid (model : Model) (text : String) (c : RawCandidate)
    (msg : String) (hm : model (build_prompt text) = .ok c)
    (he : c.toExtractedData.isEmpty = false)
    (hv : ParseResponse.ofExtractedData (normalize_extracted_data c.toExtractedData).1
      = .error msg) :
    run_interaction_parse_attempt model text =
      .ok { branch := .validationError msg, response := ParseResponse.allNull,
            steps := [.calling, .normalizing, .validating],
            warnings := (normalize_extracted_data c.toExtractedData).2, modelCalls := 1 } := by
  simp [run_interaction_parse_attempt, app_graph_invoke, call_extraction_model, hm, he, hv,
    ParseResponse.ofErrorKwargs]

theorem run_of_attempt {model : Model} {text : String} {r : RunResult}
    (h : run_interaction_parse_attempt model text = .ok r) :
    run_interaction_parse model text = r := by
  unfold run_interaction_parse
  rw [h]

theorem run_attempt_returns (model : Model) (text : String) :
    run_interaction_parse_attempt model text = .ok (run_interaction_parse model text) := by
  cases hm : model (build_prompt text) with
  | error e =>
    rw [attempt_model_error model text e hm,
      run_of_attempt (attempt_model_error model text e hm)]
  | ok c =>
    cases he : c.toExtractedData.isEmpty with
    | true =>
      rw [attempt_model_ok_empty model text c hm he,
        run_of_attempt (attempt_model_ok_empty model text c hm he)]
    | false =>
      cases hv : ParseResponse.ofExtractedData (normalize_extracted_data c.toExtractedData).1
        with
      | ok r =>
        rw [attempt_model_ok_success model text c r hm he hv,
          run_of_attempt (attempt_model_ok_success model text c r hm he hv)]
      | error msg =>
        rw [attempt_model_ok_invalid model text c msg hm he hv,
          run_of_attempt (attempt_model_ok_invalid model text c msg hm he hv)]

theorem run_modelCalls_eq_one (model : Model) (text : String) :
    (run_interaction_parse model text).modelCalls = 1 := by
  cases hm : model (build_prompt text) with
  | error e => rw [run_of_attempt (attempt_model_error model text e hm)]
  | ok c =>
    cases he : c.toExtractedData.isEmpty with
    | true => rw [run_of_attempt (attempt_model_ok_empty model text c hm he)]
    | false =>
      cases hv : ParseResponse.ofExtractedData (normalize_extracted_data c.toExtractedData).1
        with
      | ok r => rw [run_of_attempt (attempt_model_ok_success model text c r hm he hv)]
      | error msg => rw [run_of_attempt (attempt_model_ok_invalid model text c msg hm he hv)]

theorem run_failure_response_allNull (model : Model) (text : String)
    (h : (run_interaction_parse model text).branch.isSuccess = false) :
    (run_interaction_parse model text).response = ParseResponse.allNull := by
  cases hm : model (build_prompt text) with
  | error e => rw [run_of_attempt (attempt_model_error model text e hm)]
  | ok c =>
    cases he : c.toExtractedData.isEmpty with
    | true => rw [run_of_attempt (attempt_model_ok_empty model text c hm he)]
    | false =>
      cases hv : ParseResponse.ofExtractedData (normalize_extracted_data c.toExtractedData).1
        with
      | ok r =>
        rw [run_of_attempt (attempt_model_ok_success model text c r hm he hv)] at h
        simp [Branch.isSuccess] at h
      | error msg => rw [run_of_attempt (attempt_model_ok_invalid model text c msg hm he hv)]

theorem ofString_eq_some_iff (s : String) :
    (∃ v, SentimentEnum.ofString s = some v) ↔
      (s = "Positive" ∨ s = "Neutral" ∨ s = "Negative") := by
  unfold SentimentEnum.ofString
  split_ifs with h1 h2 h3
  · simp [h1]
  · simp [h2]
  · simp [h3]
  · simp [h1, h2, h3]

/-! ### The claims -/

/-- C1 counterexample: for the empty input text, with the model returning a
structurally valid candidate with no fields populated, the orchestrator does
NOT classify the outcome as a success: it takes the no-data-extracted error
return (agent.py lines 196-199), so the claim that the outcome is classified
as successful-but-empty rather than as a failure kind is false on the code. -/
theorem c1_empty_input_counterexample :
    (run_interaction_parse (fun _ => .ok emptyCandidate) "").branch = Branch.noData ∧
    (run_interaction_parse (fun _ => .ok emptyCandidate) "").branch.isSuccess = false := by
  have h := run_of_attempt
    (attempt_model_ok_empty (fun _ => .ok emptyCandidate) "" emptyCandidate rfl (by decide))
  rw [h]
  exact ⟨rfl, rfl⟩

/-- C1 (amended): when the model returns a structurally valid candidate with
no fields populated (for the empty input text or any other), the orchestrator
takes the no-data-extracted error return, not a success; the returned
`ParseResponse` is nonetheless the all-null record — indistinguishable from a
successful-but-empty extraction — because `ParseResponse` declares no error
field and the error keyword argument is dropped. -/
theorem c1_empty_extraction_no_data_branch :
    ∀ (model : Model) (text : String) (c : RawCandidate),
      model (build_prompt text) = .ok c → c.toExtractedData.isEmpty = true →
      (run_interaction_parse model text).branch = Branch.noData ∧
      (run_interaction_parse model text).response = ParseResponse.allNull := by
  intro model text c hm he
  rw [run_of_attempt (attempt_model_ok_empty model text c hm he)]
  exact ⟨rfl, rfl⟩

/-- C1 witness: the amended claim at the empty candidate and input "x". -/
theorem c1_witness :
    (run_interaction_parse (fun _ => .ok emptyCandidate) "x").branch = Branch.noData ∧
    (run_interaction_parse (fun _ => .ok emptyCandidate) "x").response
      = ParseResponse.allNull := by
  exact c1_empty_extraction_no_data_branch (fun _ => .ok emptyCandidate) "x" emptyCandidate
    rfl (by decide)

/-- C2: for every model behavior and every input text — including the empty
string and text containing quote or formatting characters, which are embedded
by plain interpolation between the fixed prompt head and tail — the body of
the orchestrator returns a value (`.ok`), never an escaping exception, and
the orchestrator returns exactly that `RunResult`. -/
theorem c2_total_no_uncaught_exception :
    ∀ (model : Model) (text : String),
      run_interaction_parse_attempt model text
          = Except.ok (run_interaction_parse model text) ∧
      build_prompt text = promptHead ++ text ++ promptTail := by
  intro model text
  exact ⟨run_attempt_returns model text, rfl⟩

/-- C3: sentiment validation accepts exactly the three case-sensitive member
strings, mapping each to the enum member with that very value (no coercion);
for a candidate whose sentiment is any other string, the orchestrator takes
the validation-failure return and the error-details message contains the
offending value (between the fixed message head and tail). -/
theorem c3_sentiment_closed_set :
    (∀ s : String,
      (∃ v, validate_sentiment (some (.pstr s)) = .ok (some v) ∧ v.value = s) ↔
        (s = "Positive" ∨ s = "Neutral" ∨ s = "Negative")) ∧
    (∀ (model : Model) (text : String) (c : RawCandidate) (s : String),
      model (build_prompt text) = .ok c → c.hcp_sentiment = some s →
      SentimentEnum.ofString s = none →
      (run_interaction_parse model text).branch
        = Branch.validationError (sentimentErrorHead ++ s ++ sentimentErrorTail)) := by
  constructor
  · intro s
    constructor
    · rintro ⟨v, hv, hval⟩
      subst hval
      cases v
      · exact Or.inl rfl
      · exact Or.inr (Or.inl rfl)
      · exact Or.inr (Or.inr rfl)
    · rintro (rfl | rfl | rfl)
      · exact ⟨.POSITIVE, rfl, rfl⟩
      · exact ⟨.NEUTRAL, rfl, rfl⟩
      · exact ⟨.NEGATIVE, rfl, rfl⟩
  · intro model text c s hm hs hnone
    have hne : c.toExtractedData.isEmpty = false := isEmpty_false_of_sentiment hs
    have hv : ParseResponse.ofExtractedData (normalize_extracted_data c.toExtractedData).1
        = .error (sentimentErrorMsg s) := by
      rw [ofExtractedData_normalized_candidate, hs]
      simp only [hnone]
    rw [run_of_attempt (attempt_model_ok_invalid model text c _ hm hne hv)]
    rfl

/-- C3 witness: the candidate carrying sentiment "Mixed" produces the
validation-failure return with "Mixed" inside the message. -/
theorem c3_witness :
    (run_interaction_parse (fun _ => .ok mixedSentimentCandidate) "v").branch
      = Branch.validationError (sentimentErrorHead ++ "Mixed" ++ sentimentErrorTail) := by
  exact c3_sentiment_closed_set.2 (fun _ => .ok mixedSentimentCandidate) "v"
    mixedSentimentCandidate "Mixed" rfl rfl (by decide)

/-- C4: time normalization strips the string, attempts the 12-hour parse
first and falls back to the 24-hour parse only on its failure; "02:30 PM"
normalizes to 14:30 (and is not 24-hour parseable); every string in zero-
padded `HH:MM` + meridiem form (AM/PM in any letter case) yields the
meridiem-converted time of day; every zero-padded 24-hour `HH:MM` string
yields that time of day; and a string neither parse accepts yields `none`
(here "matching a format" is acceptance by `strptime` with that format
string, which also tolerates unpadded components and flexible whitespace
before the meridiem). -/
theorem c4_time_normalization_ordered_fallback :
    (∀ s t, strptime_IMp (pyStrip s) = some t → parse_time_str s = some t) ∧
    (∀ s, strptime_IMp (pyStrip s) = none → parse_time_str s = strptime_HM (pyStrip s)) ∧
    parse_time_str "02:30 PM" = some ⟨14, 30⟩ ∧
    strptime_HM "02:30 PM" = none ∧
    (∀ h m c1 c2, 1 ≤ h → h ≤ 12 → m ≤ 59 → (c1 = 'A' ∨ c1 = 'a') → (c2 = 'M' ∨ c2 = 'm') →
      parse_time_str (render12 h m [c1, c2]) = some ⟨if h = 12 then 0 else h, m⟩) ∧
    (∀ h m c1 c2, 1 ≤ h → h ≤ 12 → m ≤ 59 → (c1 = 'P' ∨ c1 = 'p') → (c2 = 'M' ∨ c2 = 'm') →
      parse_time_str (render12 h m [c1, c2]) = some ⟨if h = 12 then 12 else h + 12, m⟩) ∧
    (∀ h m, h ≤ 23 → m ≤ 59 → parse_time_str (render24 h m) = some ⟨h, m⟩) ∧
    (∀ s, strptime_IMp (pyStrip s) = none → strptime_HM (pyStrip s) = none →
      parse_time_str s = none) := by
  refine ⟨?_, ?_, by decide, by decide, ?_, ?_, ?_, ?_⟩
  · intro s t h; simp [parse_time_str, h]
  · intro s h; simp [parse_time_str, h]
  · intro h m c1 c2 h1 h2 hm hc1 hc2
    exact parse_time_str_render12_am h m c1 c2 h1 h2 hm hc1 hc2
  · intro h m c1 c2 h1 h2 hm hc1 hc2
    exact parse_time_str_render12_pm h m c1 c2 h1 h2 hm hc1 hc2
  · intro h m hh hm; exact parse_time_str_render24 h m hh hm
  · intro s h1 h2; simp [parse_time_str, h1, h2]

/-- C4 witness: 02:30 PM (rendered) parses to 14:30 via the 12-hour attempt,
and 14:30 parses via the 24-hour fallback. -/
theorem c4_witness :
    parse_time_str (render12 2 30 ['P', 'M']) = some ⟨14, 30⟩ ∧
    parse_time_str (render24 14 30) = some ⟨14, 30⟩ := by
  constructor
  · have h := c4_time_normalization_ordered_fallback.2.2.2.2.2.1 2 30 'P' 'M'
      (by decide) (by decide) (by decide) (Or.inl rfl) (Or.inl rfl)
    simpa using h
  · exact c4_time_normalization_ordered_fallback.2.2.2.2.2.2.1 14 30 (by decide) (by decide)

/-- C5: every calendar-valid zero-padded `YYYY-MM-DD` string normalizes to
the equivalent calendar date; every string the strict parse rejects degrades
the field to `None` with a recorded warning, without raising and without
failing the overall extraction (the run still reaches the success return, the
date field null and the warning among the run's warnings; stated with the
sentiment absent, the only other validation that could independently fail). -/
theorem c5_date_normalization :
    (∀ y m d, 1 ≤ y → y ≤ 9999 → 1 ≤ m → m ≤ 12 → 1 ≤ d → d ≤ daysInMonth y m →
      strptime_Ymd (renderDate y m d) = some ⟨y, m, d⟩) ∧
    (∀ s, strptime_Ymd s = none →
      normalize_interaction_date (some (.pstr s)) = (some .pnone, [dateWarning s])) ∧
    (∀ (model : Model) (text : String) (c : RawCandidate) (s : String),
      model (build_prompt text) = .ok c → c.interaction_date = some s →
      strptime_Ymd s = none → c.hcp_sentiment = none →
      ∃ r, (run_interaction_parse model text).branch = Branch.success r ∧
        r.interaction_date = none ∧
        dateWarning s ∈ (run_interaction_parse model text).warnings) := by
  refine ⟨strptime_Ymd_renderDate, ?_, ?_⟩
  · intro s h
    simp [normalize_interaction_date, h]
  · intro model text c s hm hd hparse hsent
    have hne := isEmpty_false_of_date hd
    have hv : ParseResponse.ofExtractedData (normalize_extracted_data c.toExtractedData).1
        = .ok { hcp_name := c.hcp_name, interaction_type := c.interaction_type,
                interaction_date := c.interaction_date.bind strptime_Ymd,
                interaction_time := c.interaction_time.bind parse_time_str,
                attendees := c.attendees, topics_discussed := c.topics_discussed,
                materials_shared := c.materials_shared,
                samples_distributed := c.samples_distributed,
                hcp_sentiment := none, outcomes := c.outcomes,
                follow_up_actions := c.follow_up_actions } := by
      rw [ofExtractedData_normalized_candidate, hsent]
    have hrun := run_of_attempt (attempt_model_ok_success model text c _ hm hne hv)
    refine ⟨{ hcp_name := c.hcp_name, interaction_type := c.interaction_type,
              interaction_date := c.interaction_date.bind strptime_Ymd,
              interaction_time := c.interaction_time.bind parse_time_str,
              attendees := c.attendees, topics_discussed := c.topics_discussed,
              materials_shared := c.materials_shared,
              samples_distributed := c.samples_distributed,
              hcp_sentiment := none, outcomes := c.outcomes,
              follow_up_actions := c.follow_up_actions }, ?_, ?_, ?_⟩
    · rw [hrun]
    · simp [hd, hparse, Option.bind]
    · rw [hrun]
      simp [normalize_extracted_data, RawCandidate.toExtractedData, hd,
        normalize_interaction_date, hparse]

/-- C5 witness: a leap day normalizes to the equivalent date, and a candidate
whose only populated field is an unparseable date string still reaches the
success return with the date null and the warning recorded. -/
theorem c5_witness :
    strptime_Ymd (renderDate 2024 2 29) = some ⟨2024, 2, 29⟩ ∧
    (∃ r, (run_interaction_parse (fun _ => .ok badDateCandidate) "t").branch
        = Branch.success r ∧ r.interaction_date = none ∧
      dateWarning "not-a-date"
        ∈ (run_interaction_parse (fun _ => .ok badDateCandidate) "t").warnings) := by
  constructor
  · exact c5_date_normalization.1 2024 2 29 (by decide) (by decide) (by decide) (by decide)
      (by decide) (by decide)
  · exact c5_date_normalization.2.2 (fun _ => .ok badDateCandidate) "t" badDateCandidate
      "not-a-date" rfl rfl (by decide) rfl

/-- C6: the orchestrator takes the no-data-extracted return exactly when the
raw candidate was empty and the candidate is still empty after normalization
(the code tests raw emptiness before normalizing, and an empty dict stays
empty under normalization, so the two conditions coincide); in particular, a
candidate with any populated field, even one that normalization then degrades
to null, does not produce the no-data return. -/
theorem c6_no_data_iff_raw_and_normalized_empty :
    ∀ (model : Model) (text : String) (c : RawCandidate),
      model (build_prompt text) = .ok c →
      ((run_interaction_parse model text).branch = Branch.noData ↔
        (c.toExtractedData.isAllNull = true ∧
          (normalize_extracted_data c.toExtractedData).1.isAllNull = true)) := by
  intro model text c hm
  cases he : c.toExtractedData.isEmpty with
  | true =>
    rw [run_of_attempt (attempt_model_ok_empty model text c hm he)]
    have h1 : c.toExtractedData.isAllNull = true := by
      rw [toExtractedData_isAllNull]; exact he
    exact ⟨fun _ => ⟨h1, normalize_preserves_isAllNull h1⟩, fun _ => rfl⟩
  | false =>
    have h1 : c.toExtractedData.isAllNull = false := by
      rw [toExtractedData_isAllNull]; exact he
    constructor
    · intro hb
      exfalso
      cases hv : ParseResponse.ofExtractedData (normalize_extracted_data c.toExtractedData).1
        with
      | ok r =>
        rw [run_of_attempt (attempt_model_ok_success model text c r hm he hv)] at hb
        exact absurd hb (by simp)
      | error msg =>
        rw [run_of_attempt (attempt_model_ok_invalid model text c msg hm he hv)] at hb
        exact absurd hb (by simp)
    · rintro ⟨ha, _⟩
      rw [h1] at ha
      exact absurd ha (by simp)

/-- C6 witness: the biconditional applied to the empty candidate on input
"y": both emptiness conditions hold and the branch is the no-data return. -/
theorem c6_witness :
    (run_interaction_parse (fun _ => .ok emptyCandidate) "y").branch = Branch.noData := by
  exact (c6_no_data_iff_raw_and_normalized_empty (fun _ => .ok emptyCandidate) "y"
    emptyCandidate rfl).mpr ⟨by decide, by decide⟩

/-- C7: when the model call fails, the orchestrator takes the workflow-error
return carrying the underlying message after the fixed text, having executed
only the Calling step (Normalizing and Validating short-circuited); and every
invocation, whatever the outcome, issues exactly one model call. -/
theorem c7_model_call_failed_short_circuit :
    (∀ (model : Model) (text : String) (e : String),
      model (build_prompt text) = .error e →
      (run_interaction_parse model text).branch
          = Branch.agentError ("Error during LLM call: " ++ e) ∧
      (run_interaction_parse model text).steps = [Step.calling]) ∧
    (∀ (model : Model) (text : String), (run_interaction_parse model text).modelCalls = 1) := by
  constructor
  · intro model text e hm
    rw [run_of_attempt (attempt_model_error model text e hm)]
    exact ⟨rfl, rfl⟩
  · exact run_modelCalls_eq_one

/-- C7 witness: a simulated model-service outage on input "w". -/
theorem c7_witness :
    (run_interaction_parse (fun _ => .error "service unavailable") "w").branch
        = Branch.agentError ("Error during LLM call: " ++ "service unavailable") ∧
    (run_interaction_parse (fun _ => .error "service unavailable") "w").steps
        = [Step.calling] ∧
    (run_interaction_parse (fun _ => .error "service unavailable") "w").modelCalls = 1 := by
  obtain ⟨hb, hsteps⟩ := c7_model_call_failed_short_circuit.1
    (fun _ => .error "service unavailable") "w" "service unavailable" rfl
  exact ⟨hb, hsteps, c7_model_call_failed_short_circuit.2
    (fun _ => .error "service unavailable") "w"⟩

/-- C8: the Normalizing step rewrites only the interaction_date and
interaction_time entries — every other entry of the dict is unchanged — and
whenever record construction succeeds, every field other than date and time
of the constructed record equals the candidate's field (lists copied as-is,
the sentiment member carrying exactly the candidate's string value). -/
theorem c8_normalization_frame :
    (∀ d : ExtractedData,
      (normalize_extracted_data d).1.hcp_name = d.hcp_name ∧
      (normalize_extracted_data d).1.interaction_type = d.interaction_type ∧
      (normalize_extracted_data d).1.attendees = d.attendees ∧
      (normalize_extracted_data d).1.topics_discussed = d.topics_discussed ∧
      (normalize_extracted_data d).1.materials_shared = d.materials_shared ∧
      (normalize_extracted_data d).1.samples_distributed = d.samples_distributed ∧
      (normalize_extracted_data d).1.hcp_sentiment = d.hcp_sentiment ∧
      (normalize_extracted_data d).1.outcomes = d.outcomes ∧
      (normalize_extracted_data d).1.follow_up_actions = d.follow_up_actions) ∧
    (∀ (c : RawCandidate) (r : ParseResponse),
      ParseResponse.ofExtractedData (normalize_extracted_data c.toExtractedData).1 = .ok r →
      r.hcp_name = c.hcp_name ∧ r.interaction_type = c.interaction_type ∧
      r.attendees = c.attendees ∧ r.topics_discussed = c.topics_discussed ∧
      r.materials_shared = c.materials_shared ∧
      r.samples_distributed = c.samples_distributed ∧
      Option.map SentimentEnum.value r.hcp_sentiment = c.hcp_sentiment ∧
      r.outcomes = c.outcomes ∧ r.follow_up_actions = c.follow_up_actions) := by
  constructor
  · intro d
    exact ⟨rfl, rfl, rfl, rfl, rfl, rfl, rfl, rfl, rfl⟩
  · intro c r hv
    rw [ofExtractedData_normalized_candidate c] at hv
    cases hs : c.hcp_sentiment with
    | none =>
      rw [hs] at hv
      obtain rfl := Except.ok.inj hv
      simp [hs]
    | some s =>
      rw [hs] at hv
      cases ho : SentimentEnum.ofString s with
      | none =>
        simp [ho] at hv
      | some v =>
        simp only [ho] at hv
        obtain rfl := Except.ok.inj hv
        refine ⟨rfl, rfl, rfl, rfl, rfl, rfl, ?_, rfl, rfl⟩
        simp [ofString_value ho, hs]

/-- C8 witness: the fully populated candidate passes validation with every
non-date/time field unchanged. -/
theorem c8_witness :
    ParseResponse.ofExtractedData (normalize_extracted_data fullCandidate.toExtractedData).1
        = .ok fullResponse ∧
    fullResponse.hcp_name = fullCandidate.hcp_name ∧
    fullResponse.attendees = fullCandidate.attendees ∧
    Option.map SentimentEnum.value fullResponse.hcp_sentiment
      = fullCandidate.hcp_sentiment := by
  have hv : ParseResponse.ofExtractedData
      (normalize_extracted_data fullCandidate.toExtractedData).1 = .ok fullResponse := by
    rfl
  obtain ⟨h1, h2, h3, h4, h5, h6, h7, h8, h9⟩ :=
    c8_normalization_frame.2 fullCandidate fullResponse hv
  exact ⟨hv, h1, h3, h7⟩

/-- C9: date/time normalization is idempotent: a value already in canonical
normalized form (the output of a previous normalization — a parsed date, a
parsed time, or null) is left unchanged by a second run, with no new warning,
at the single-field level and at the whole-dict level. -/
theorem c9_normalization_idempotent :
    (∀ v : Option PyVal,
      normalize_interaction_date (normalize_interaction_date v).1
        = ((normalize_interaction_date v).1, [])) ∧
    (∀ v : Option PyVal,
      normalize_interaction_time (normalize_interaction_time v).1
        = ((normalize_interaction_time v).1, [])) ∧
    (∀ d : ExtractedData,
      normalize_extracted_data (normalize_extracted_data d).1
        = ((normalize_extracted_data d).1, [])) := by
  have hdate : ∀ v : Option PyVal,
      normalize_interaction_date (normalize_interaction_date v).1
        = ((normalize_interaction_date v).1, []) := by
    intro v
    cases v with
    | none => rfl
    | some pv =>
      cases pv with
      | pstr s => cases h : strptime_Ymd s <;> simp [normalize_interaction_date, h]
      | plist l => rfl
      | pdate d => rfl
      | ptime t => rfl
      | pnone => rfl
  have htime : ∀ v : Option PyVal,
      normalize_interaction_time (normalize_interaction_time v).1
        = ((normalize_interaction_time v).1, []) := by
    intro v
    cases v with
    | none => rfl
    | some pv =>
      cases pv with
      | pstr s => cases h : parse_time_str s <;> simp [normalize_interaction_time, h]
      | plist l => rfl
      | pdate d => rfl
      | ptime t => rfl
      | pnone => rfl
  refine ⟨hdate, htime, ?_⟩
  intro d
  have h1 := hdate d.interaction_date
  have h2 := htime d.interaction_time
  simp [normalize_extracted_data, h1, h2]

/-- C10 (implicit): every failure outcome of the orchestrator — model-call
failure, validation failure, no-data-extracted, agent execution error — is
returned as the all-null `ParseResponse` (`ParseResponse` declares no error
field, so the error keyword arguments are silently dropped and the failure
kind and message are not observable in the returned value), structurally
identical to the response of a genuine success producing an all-null record,
as the bad-date candidate run shows. -/
theorem c10_failures_indistinguishable_from_success :
    (∀ (model : Model) (text : String),
      (run_interaction_parse model text).branch.isSuccess = false →
      (run_interaction_parse model text).response = ParseResponse.allNull) ∧
    (run_interaction_parse (fun _ => .ok badDateCandidate) "note").branch.isSuccess = true ∧
    (run_interaction_parse (fun _ => .ok badDateCandidate) "note").response
      = ParseResponse.allNull := by
  have hv : ParseResponse.ofExtractedData
      (normalize_extracted_data badDateCandidate.toExtractedData).1
        = .ok ParseResponse.allNull := by
    rfl
  have hrun := run_of_attempt (attempt_model_ok_success (fun _ => .ok badDateCandidate)
    "note" badDateCandidate ParseResponse.allNull rfl (by decide) hv)
  refine ⟨run_failure_response_allNull, ?_, ?_⟩
  · rw [hrun]
    rfl
  · rw [hrun]

/-- C10 witness: a model-call failure on input "z" returns the all-null
record. -/
theorem c10_witness :
    (run_interaction_parse (fun _ => .error "boom") "z").branch.isSuccess = false ∧
    (run_interaction_parse (fun _ => .error "boom") "z").response
      = ParseResponse.allNull := by
  have h1 : (run_interaction_parse (fun _ => .error "boom") "z").branch.isSuccess = false := by
    rw [run_of_attempt (attempt_model_error (fun _ => .error "boom") "z" "boom" rfl)]
    rfl
  exact ⟨h1, c10_failures_indistinguishable_from_success.1 (fun _ => .error "boom") "z" h1⟩

end HCPLogger
